import Mathlib

/-!
Verification development for the Cala Home Assistant integration
(`custom_components/cala`).  The Python source is shallowly embedded:
dictionaries become association lists, network calls become explicit
oracle parameters, exceptions become `Except`, and each claim of the
specification is settled against the embedded definitions.
-/

namespace Cala

/-- JSON-ish value carried in the vendor's flat dictionaries.  Numbers are
modelled as rationals (the Python code only compares, defaults and copies
them). -/
inductive JVal where
  | num (q : Rat)
  | str (s : String)
  | boolean (b : Bool)
  | null
  deriving DecidableEq

/-- A Python `dict[str, α]` as an ordered association list. -/
abbrev Dict (α : Type) := List (String × α)

/-- Lookup, as `d.get(k)` / `d[k]`: first binding wins (Python dicts have
unique keys; inserts below keep that invariant). -/
def alookup {α : Type} : Dict α → String → Option α
  | [], _ => none
  | (k2, v) :: rest, k => if k2 = k then some v else alookup rest k

/-- Lookup with default, as `d.get(k, v0)`. -/
def agetD {α : Type} (d : Dict α) (k : String) (v0 : α) : α :=
  (alookup d k).getD v0

/-- Assignment `d[k] = v`: replace the first binding of `k`, or append. -/
def ains {α : Type} : Dict α → String → α → Dict α
  | [], k, v => [(k, v)]
  | (k2, v2) :: rest, k, v =>
      if k2 = k then (k, v) :: rest else (k2, v2) :: ains rest k v

/-- Merge, as `d.update(e)` / `\x7b**d, **e\x7d`: fold `e`'s bindings into `d`, later
bindings overwriting earlier ones. -/
def aupdate {α : Type} (d e : Dict α) : Dict α :=
  e.foldl (fun acc p => ains acc p.1 p.2) d

/-- The keys of a dictionary, in order. -/
def akeys {α : Type} (d : Dict α) : List String := d.map Prod.fst

/-- The dictionary has pairwise distinct keys (true of every dict built by
Python assignment/update). -/
def anodup {α : Type} (d : Dict α) : Prop := (akeys d).Nodup

instance {α : Type} (d : Dict α) : Decidable (anodup d) := by
  unfold anodup; infer_instance

/-! ## API client: `_graphql_request` (api.py)

The HTTP exchange is embedded explicitly: the environment supplies the
response to the first POST and (if needed) to the retried POST, and a flag
saying whether `_refresh_tokens` completes without raising
`CalaAuthenticationError`. -/

/-- Failure modes surfaced by the API client: `CalaApiError` and
`CalaAuthenticationError`. -/
inductive ApiFailure where
  | apiError
  | authError
  deriving DecidableEq

/-- The parsed JSON body of a GraphQL response, restricted to the keys the
client inspects: the `errors` key (`none` when absent) and the `data` key. -/
structure GqlBody where
  errors : Option (List String)
  data : Option (Dict JVal)
  deriving DecidableEq

/-- Result of one `session.post`: an HTTP response with status and JSON
body, or an `aiohttp.ClientError`. -/
inductive HttpResult where
  | resp (status : Nat) (body : GqlBody)
  | netError (msg : String)
  deriving DecidableEq

/-- The JSON payload `{"query": ..., "vars": ...}` posted to the
endpoint; `vars` is omitted when the Python value is falsy (None or an
empty dict). -/
structure GqlPayload where
  query : String
  vars : Option (Dict JVal)
  deriving DecidableEq

/-- Build the POST payload exactly as `_graphql_request` does. -/
def payloadOf (query : String) (vars : Option (Dict JVal)) : GqlPayload :=
  { query := query
    vars := match vars with
      | none => none
      | some v => if v.isEmpty then none else some v }

/-- Observable client actions: an HTTP POST of a payload, or a call to
`_refresh_tokens`. -/
inductive ApiEvent where
  | post (p : GqlPayload)
  | tokenRefresh
  deriving DecidableEq

/-- Tail of `_graphql_request`: `if "errors" in data: raise CalaApiError`,
otherwise `return data.get("data", {})`. -/
def finishBody (b : GqlBody) : Except ApiFailure (Dict JVal) :=
  match b.errors with
  | some _ => .error .apiError
  | none => .ok (b.data.getD [])

/-- Embedding of `CalaApiClient._graphql_request`: POST the payload; on a 401 status,
refresh tokens once and re-POST the same payload once; treat an `errors`
key in the final body as `CalaApiError`; wrap `aiohttp.ClientError` as
`CalaApiError`.  Returns the result together with the trace of POSTs and
refreshes performed. -/
def graphql_request (r1 r2 : HttpResult) (refresh_ok : Bool)
    (query : String) (vars : Option (Dict JVal)) :
    Except ApiFailure (Dict JVal) × List ApiEvent :=
  let p := payloadOf query vars
  match r1 with
  | .netError _ => (.error .apiError, [.post p])
  | .resp s b =>
      if s = 401 then
        if refresh_ok then
          match r2 with
          | .netError _ => (.error .apiError, [.post p, .tokenRefresh, .post p])
          | .resp _ b2 => (finishBody b2, [.post p, .tokenRefresh, .post p])
        else (.error .authError, [.post p, .tokenRefresh])
      else (finishBody b, [.post p])

/-! ## API client: mutations (api.py)

Each mutation wraps `_graphql_request` in `try/except CalaApiError`,
returning `True` on success and `False` on `CalaApiError`; a
`CalaAuthenticationError` is not caught and propagates.  The outcome of
the underlying GraphQL mutation is the oracle parameter. -/

/-- Outcome of a network interaction, as seen by a caller of the client:
a value, a `CalaApiError`, or a `CalaAuthenticationError`. -/
inductive Outcome (α : Type) where
  | ok (a : α)
  | apiError
  | authError
  deriving DecidableEq

/-- Shared body of every mutation wrapper in `api.py`
(`try: await self._graphql_request(...); return True
except CalaApiError: return False`). -/
def mutationWrapper (r : Outcome Unit) : Except ApiFailure Bool :=
  match r with
  | .ok _ => .ok true
  | .apiError => .ok false
  | .authError => .error .authError

/-- Embedding of `CalaApiClient.set_temperature`. -/
def set_temperature (water_heater_id : String) (temperature : Rat)
    (r : Outcome Unit) : Except ApiFailure Bool :=
  mutationWrapper r

/-- Embedding of `CalaApiClient.create_boost_mode`. -/
def create_boost_mode (water_heater_id : String) (target_temp : Rat)
    (duration_minutes : Int) (r : Outcome Unit) : Except ApiFailure Bool :=
  mutationWrapper r

/-- Embedding of `CalaApiClient.cancel_boost_mode`. -/
def cancel_boost_mode (boost_id : String) (r : Outcome Unit) :
    Except ApiFailure Bool :=
  mutationWrapper r

/-- Embedding of `CalaApiClient.create_vacation_mode`. -/
def create_vacation_mode (home_id : String) (start_date end_date : Int)
    (r : Outcome Unit) : Except ApiFailure Bool :=
  mutationWrapper r

/-- Embedding of `CalaApiClient.cancel_vacation_mode`. -/
def cancel_vacation_mode (vacation_id : String) (r : Outcome Unit) :
    Except ApiFailure Bool :=
  mutationWrapper r

/-- Modelled from the spec: `CalaApiClient.set_operation_mode` is called by
`CalaDataUpdateCoordinator.async_set_operation_mode` but is not defined
under src; per the spec, mutations (mode changes included) swallow API
errors and return a boolean success flag. -/
def set_operation_mode (water_heater_id mode : String) (r : Outcome Unit) :
    Except ApiFailure Bool :=
  mutationWrapper r

/-- Modelled from the spec: `CalaApiClient.turn_on` is called by
`CalaDataUpdateCoordinator.async_turn_on` but is not defined under src;
modelled as a mode-change mutation returning a boolean success flag. -/
def turn_on (water_heater_id : String) (r : Outcome Unit) :
    Except ApiFailure Bool :=
  mutationWrapper r

/-- Modelled from the spec: `CalaApiClient.turn_off` is called by
`CalaDataUpdateCoordinator.async_turn_off` but is not defined under src;
modelled as a mode-change mutation returning a boolean success flag. -/
def turn_off (water_heater_id : String) (r : Outcome Unit) :
    Except ApiFailure Bool :=
  mutationWrapper r

/-- Embedding of `CalaDataUpdateCoordinator.async_set_operation_mode`: calls the client
and returns its flag; only `CalaApiError` is caught (and the client never
raises it), so an authentication error still propagates. -/
def async_set_operation_mode (heater_id mode : String) (r : Outcome Unit) :
    Except ApiFailure Bool :=
  match set_operation_mode heater_id mode r with
  | .ok b => .ok b
  | .error .apiError => .ok false
  | .error .authError => .error .authError

/-- Embedding of `CalaDataUpdateCoordinator.async_turn_on`. -/
def async_turn_on (heater_id : String) (r : Outcome Unit) :
    Except ApiFailure Bool :=
  match turn_on heater_id r with
  | .ok b => .ok b
  | .error .apiError => .ok false
  | .error .authError => .error .authError

/-- Embedding of `CalaDataUpdateCoordinator.async_turn_off`. -/
def async_turn_off (heater_id : String) (r : Outcome Unit) :
    Except ApiFailure Bool :=
  match turn_off heater_id r with
  | .ok b => .ok b
  | .error .apiError => .ok false
  | .error .authError => .error .authError

/-! ## API client: status queries (api.py) -/

/-- Python truthiness of a JSON value (`if x:`). -/
def jTruthy : JVal → Bool
  | .num q => q ≠ 0
  | .str s => s ≠ ""
  | .boolean b => b
  | .null => false

/-- Truthy string extraction, as in `iot_id = heater.get("IoT_id")` followed
by `if not iot_id:`: yields the string only when present and non-empty. -/
def truthyStr (v : Option JVal) : Option String :=
  match v with
  | some (.str s) => if s = "" then none else some s
  | _ => none

/-- GraphQL operation used by `get_water_heater_status` for aggregated
sensor data. -/
def bucketed_sensor_op : String := "listBucketedSensorDataByDeviceIdAndTimestamp"

/-- GraphQL operation used by `get_water_heater_status` for raw sensor
data. -/
def raw_sensor_op : String := "listSensorDataByDeviceIdAndTimestamp"

/-- GraphQL operation used by `get_device_properties`. -/
def device_properties_op : String := "listDevicePropertiesByDeviceIdAndTimestamp"

/-- GraphQL operation used by `get_controls`. -/
def controls_op : String := "listControlsByDeviceIdAndTimestamp"

/-- GraphQL operation used by `get_monitoring_alerts`. -/
def alerts_op : String := "getLatestMonitoringAlert"

/-- GraphQL operation used by `get_rolling_state`. -/
def rolling_state_op : String := "getRollingDeviceState"

/-- Selection set of the `getDailyDeviceSummary` query issued by
`get_daily_summary`: the only keys a returned summary can carry. -/
def daily_summary_fields : List String :=
  ["deviceId", "date", "energyUsed", "waterUsed"]

/-- Embedding of `CalaApiClient.get_water_heater_status`: issue the bucketed-sensor
query, then the raw-sensor query (sequentially, per the source comment),
and merge `items[0]` of each into a fresh dict, the raw items updating
(overwriting) the bucketed ones.  Returns the merged flat dict together
with the list of GraphQL operations issued, in order. -/
def get_water_heater_status (bucketed_items raw_items : List (Dict JVal)) :
    Dict JVal × List String :=
  let d0 : Dict JVal := []
  let d1 := match bucketed_items with
    | [] => d0
    | x :: _ => aupdate d0 x
  let d2 := match raw_items with
    | [] => d1
    | x :: _ => aupdate d1 x
  (d2, [bucketed_sensor_op, raw_sensor_op])

/-- Results handed to `get_full_status` by `asyncio.gather` with
`return_exceptions=True`: each sub-task independently yields a value or an
exception. -/
structure FullStatusEnv where
  sensor_data : Except String (Dict JVal)
  device_properties : Except String (Dict JVal)
  controls : Except String (Dict JVal)
  alerts : Except String (Dict JVal)
  rolling_state : Except String (Dict JVal)
  boost_mode : Except String (Option (Dict JVal))
  vacation_mode : Except String (Option (Dict JVal))

/-- The fixed-key dictionary returned by `get_full_status`. -/
structure FullStatus where
  water_heater : Dict JVal
  sensor_data : Dict JVal
  device_properties : Dict JVal
  controls : Dict JVal
  alerts : Dict JVal
  rolling_state : Dict JVal
  boost_mode : Option (Dict JVal)
  vacation_mode : Option (Dict JVal)
  is_boost_active : Bool
  is_vacation_active : Bool
  deriving DecidableEq

/-- Truthiness test `bool(boost and boost.get("active"))`. -/
def boostActive (boost : Option (Dict JVal)) : Bool :=
  match boost with
  | none => false
  | some b =>
      if b.isEmpty then false
      else match alookup b "active" with
        | none => false
        | some v => jTruthy v

/-- Truthiness test `bool(vacation)`. -/
def vacationActive (vacation : Option (Dict JVal)) : Bool :=
  match vacation with
  | none => false
  | some v => ¬ v.isEmpty

/-- Embedding of `CalaApiClient.get_full_status`: returns an empty dict
(modelled as `none`) when
the record has no truthy `IoT_id`; otherwise gathers the seven sub-results
with per-task exception isolation, replacing a failed dict sub-result by
`{}` and a failed boost/vacation sub-result by `None`.  When `id` (resp.
`homeId`) is falsy the boost (resp. vacation) task is `asyncio.sleep(0)`,
whose value is `None`. -/
def get_full_status (water_heater : Dict JVal) (env : FullStatusEnv) :
    Option FullStatus :=
  match truthyStr (alookup water_heater "IoT_id") with
  | none => none
  | some _ =>
      let boost_res : Except String (Option (Dict JVal)) :=
        match truthyStr (alookup water_heater "id") with
        | some _ => env.boost_mode
        | none => .ok none
      let vacation_res : Except String (Option (Dict JVal)) :=
        match truthyStr (alookup water_heater "homeId") with
        | some _ => env.vacation_mode
        | none => .ok none
      let boost := match boost_res with
        | .ok b => b
        | .error _ => none
      let vacation := match vacation_res with
        | .ok v => v
        | .error _ => none
      some
        { water_heater := water_heater
          sensor_data := match env.sensor_data with
            | .ok d => d
            | .error _ => []
          device_properties := match env.device_properties with
            | .ok d => d
            | .error _ => []
          controls := match env.controls with
            | .ok d => d
            | .error _ => []
          alerts := match env.alerts with
            | .ok d => d
            | .error _ => []
          rolling_state := match env.rolling_state with
            | .ok d => d
            | .error _ => []
          boost_mode := boost
          vacation_mode := vacation
          is_boost_active := boostActive boost
          is_vacation_active := vacationActive vacation }

/-! ## Coordinator (coordinator.py)

`CalaDataUpdateCoordinator` state: the discovered heater map, the daily
usage cache, and the previous aggregate (`self.data`).  Wall-clock times
are rationals (seconds), calendar dates integers. -/

/-- The three per-heater caches backing `_get_daily_usage`. -/
structure DUState where
  cache : Dict (Dict JVal)
  last_fetch : Dict Rat
  cur_date : Dict Int
  deriving DecidableEq

/-- The zero pair returned when nothing is cached. -/
def zero_usage : Dict JVal :=
  [("dailyEnergyUsed", .num 0), ("dailyWaterUsed", .num 0)]

/-- The refresh condition of `_get_daily_usage`: no prior fetch, or cached
date differs from today, or at least 300 seconds since the last fetch. -/
def needs_refresh (st : DUState) (hid : String) (today : Int) (now : Rat) :
    Bool :=
  match alookup st.last_fetch hid with
  | none => true
  | some lf => alookup st.cur_date hid ≠ some today ∨ 300 ≤ now - lf

/-- Result of `_get_daily_usage`: updated caches, the returned usage dict,
and whether `get_daily_summary` was called. -/
structure DUResult where
  state : DUState
  usage : Dict JVal
  called_api : Bool
  deriving DecidableEq

/-- Embedding of `CalaDataUpdateCoordinator._get_daily_usage`; `fetch` is the outcome
of `client.get_daily_summary` for this heater's device; it is consulted
only when a refresh is due.  A `CalaApiError` from the fetch is caught and
the cached value (or the zero pair) returned with caches untouched; a
`CalaAuthenticationError` propagates. -/
def get_daily_usage (st : DUState) (hid : String) (today : Int) (now : Rat)
    (fetch : Outcome (Dict JVal)) : Except ApiFailure DUResult :=
  if needs_refresh st hid today now then
    match fetch with
    | .ok u =>
        let st2 : DUState :=
          { cache := ains st.cache hid u
            last_fetch := ains st.last_fetch hid now
            cur_date := ains st.cur_date hid today }
        .ok { state := st2
              usage := agetD st2.cache hid zero_usage
              called_api := true }
    | .apiError =>
        .ok { state := st
              usage := match alookup st.cache hid with
                | some u => u
                | none => zero_usage
              called_api := true }
    | .authError => .error .authError
  else
    .ok { state := st
          usage := agetD st.cache hid zero_usage
          called_api := false }

/-- A water heater record from discovery: its `id` (the dict key used by
the coordinator) and the full vendor dict. -/
structure Heater where
  id : String
  record : Dict JVal
  deriving DecidableEq

/-- Network environment of one `_async_update_data` cycle: the outcome of
`get_water_heaters`, and per device the outcomes of
`get_water_heater_status` and `get_daily_summary`. -/
structure UpdateEnv where
  discovery : Outcome (List Heater)
  status : String → Outcome (Dict JVal)
  daily : String → Outcome (Dict JVal)

/-- Coordinator state carried across update cycles. -/
structure Coordinator where
  water_heaters : Dict Heater
  du : DUState
  data : Option (Dict (Dict JVal))

/-- Embedding of `self._get_midnight_timestamp(today)`, an opaque value derived from
the date. -/
def midnight_timestamp (today : Int) : JVal := .num today

/-- Lines 68-70 of coordinator.py: copy the daily totals (with default
`0.0`) and the reset time into the status dict. -/
def status_with_daily (status usage : Dict JVal) (today : Int) : Dict JVal :=
  ains (ains (ains status
      "dailyEnergyUsed" (agetD usage "dailyEnergyUsed" (.num 0)))
      "dailyWaterUsed" (agetD usage "dailyWaterUsed" (.num 0)))
      "dailyResetTime" (midnight_timestamp today)

/-- Host-level failure `UpdateFailed` of a whole update cycle. -/
inductive UpdFail where
  | updateFailed
  deriving DecidableEq

/-- The per-heater loop of `_async_update_data`.  For each heater: skip it
when `IoT_id` is falsy; on a `CalaApiError` from the status fetch fall
back to the previous aggregate's snapshot when present; otherwise compute
daily usage (possibly from cache) and store the merged
`{**heater, **status}` entry.  Authentication errors (and daily-usage
authentication errors) escape the inner `except CalaApiError` and fail the
cycle. -/
def process_heaters (env : UpdateEnv) (today : Int) (now : Rat)
    (prev : Option (Dict (Dict JVal))) :
    List (String × Heater) → DUState → Dict (Dict JVal) →
      Except UpdFail (DUState × Dict (Dict JVal))
  | [], du, acc => .ok (du, acc)
  | (hid, h) :: rest, du, acc =>
      match truthyStr (alookup h.record "IoT_id") with
      | none => process_heaters env today now prev rest du acc
      | some iot =>
          match env.status iot with
          | .authError => .error .updateFailed
          | .apiError =>
              let acc2 := match prev with
                | some pd =>
                    if pd.isEmpty then acc
                    else match alookup pd hid with
                      | some snap => ains acc hid snap
                      | none => acc
                | none => acc
              process_heaters env today now prev rest du acc2
          | .ok status =>
              match get_daily_usage du hid today now (env.daily iot) with
              | .error _ => .error .updateFailed
              | .ok r =>
                  let entry :=
                    aupdate h.record (status_with_daily status r.usage today)
                  process_heaters env today now prev rest r.state
                    (ains acc hid entry)

/-- Registration loop `for heater in heaters: self.water_heaters[heater["id"]] = heater`. -/
def register_heaters (wh : Dict Heater) (hs : List Heater) : Dict Heater :=
  hs.foldl (fun acc h => ains acc h.id h) wh

/-- Result of one `_async_update_data` cycle: the coordinator state after
the cycle (in-place mutations persist even when the cycle fails), the
aggregate result or `UpdateFailed`, and whether `get_water_heaters` was
called. -/
structure UpdOutcome where
  coord : Coordinator
  result : Except UpdFail (Dict (Dict JVal))
  discovery_called : Bool

/-- Embedding of `CalaDataUpdateCoordinator._async_update_data`: discover heaters only
when the heater map is empty, then poll every known heater; any
authentication error, any API error outside the per-heater `try`, and any
unexpected error surface as `UpdateFailed`. -/
def async_update_data (c : Coordinator) (env : UpdateEnv) (today : Int)
    (now : Rat) : UpdOutcome :=
  if c.water_heaters.isEmpty then
    match env.discovery with
    | .apiError =>
        { coord := c, result := .error .updateFailed, discovery_called := true }
    | .authError =>
        { coord := c, result := .error .updateFailed, discovery_called := true }
    | .ok heaters =>
        let wh := register_heaters c.water_heaters heaters
        match process_heaters env today now c.data wh c.du [] with
        | .error e =>
            { coord := { c with water_heaters := wh }
              result := .error e
              discovery_called := true }
        | .ok (du2, agg) =>
            { coord := { water_heaters := wh, du := du2, data := some agg }
              result := .ok agg
              discovery_called := true }
  else
    match process_heaters env today now c.data c.water_heaters c.du [] with
    | .error e =>
        { coord := c, result := .error e, discovery_called := false }
    | .ok (du2, agg) =>
        { coord := { water_heaters := c.water_heaters, du := du2,
                     data := some agg }
          result := .ok agg
          discovery_called := false }

/-- An entry of the heater map whose status fetch or daily-summary fetch
raises `CalaAuthenticationError` (the only per-heater exceptions that
escape the inner `except CalaApiError`). -/
def heater_auth_failure (env : UpdateEnv) (p : String × Heater) : Prop :=
  ∃ iot, truthyStr (alookup p.2.record "IoT_id") = some iot ∧
    (env.status iot = .authError ∨ env.daily iot = .authError)

/-! ## Dictionary lemmas -/

theorem alookup_ains_self {α : Type} (d : Dict α) (k : String) (v : α) :
    alookup (ains d k v) k = some v := by
  induction d with
  | nil => simp [ains, alookup]
  | cons p rest ih =>
      obtain ⟨k2, v2⟩ := p
      by_cases h : k2 = k
      · simp [ains, h, alookup]
      · simp [ains, h, alookup, ih]

theorem alookup_ains_ne {α : Type} (d : Dict α) (k2 k : String) (v : α)
    (h : k2 ≠ k) : alookup (ains d k2 v) k = alookup d k := by
  induction d with
  | nil => simp [ains, alookup, h]
  | cons p rest ih =>
      obtain ⟨k3, v3⟩ := p
      by_cases h3 : k3 = k2
      · subst h3
        simp [ains, alookup, h]
      · by_cases h4 : k3 = k
        · subst h4
          simp [ains, h3, alookup]
        · simp [ains, h3, alookup, h4, ih]

theorem alookup_eq_none_of_not_mem_keys {α : Type} (d : Dict α) (k : String)
    (h : k ∉ akeys d) : alookup d k = none := by
  induction d with
  | nil => simp [alookup]
  | cons p rest ih =>
      obtain ⟨k2, v2⟩ := p
      simp only [akeys, List.map_cons, List.mem_cons] at h
      push_neg at h
      simp only [alookup]
      rw [if_neg (Ne.symm h.1)]
      exact ih (by simpa [akeys] using h.2)

theorem akeys_ains {α : Type} (d : Dict α) (k : String) (v : α) :
    akeys (ains d k v) = if k ∈ akeys d then akeys d else akeys d ++ [k] := by
  induction d with
  | nil => simp [ains, akeys]
  | cons p rest ih =>
      obtain ⟨k2, v2⟩ := p
      by_cases h : k2 = k
      · subst h
        simp [ains, akeys]
      · simp only [ains, if_neg h, akeys, List.map_cons]
        rw [show akeys rest = rest.map Prod.fst from rfl] at ih
        by_cases hm : k ∈ rest.map Prod.fst
        · simp [akeys, List.mem_cons, hm, Ne.symm h] at ih ⊢
          simp [ih]
        · simp [akeys, List.mem_cons, hm, Ne.symm h] at ih ⊢
          simp [ih]

theorem anodup_ains {α : Type} (d : Dict α) (k : String) (v : α)
    (h : anodup d) : anodup (ains d k v) := by
  unfold anodup at h ⊢
  rw [akeys_ains]
  by_cases hm : k ∈ akeys d
  · simpa [hm] using h
  · simp only [hm, if_false]
    simpa [List.nodup_append] using ⟨h, hm⟩

theorem ains_ne_nil {α : Type} (d : Dict α) (k : String) (v : α) :
    ains d k v ≠ [] := by
  cases d with
  | nil => simp [ains]
  | cons p rest =>
      obtain ⟨k2, v2⟩ := p
      by_cases h : k2 = k <;> simp [ains, h]

theorem alookup_aupdate_of_none {α : Type} (e : Dict α) :
    ∀ d k, alookup e k = none → alookup (aupdate d e) k = alookup d k := by
  induction e with
  | nil => intro d k _; simp [aupdate]
  | cons p rest ih =>
      obtain ⟨k2, v2⟩ := p
      intro d k h
      simp only [alookup] at h
      by_cases h2 : k2 = k
      · simp [h2] at h
      · simp only [if_neg h2] at h
        show alookup (aupdate (ains d k2 v2) rest) k = alookup d k
        rw [ih (ains d k2 v2) k h, alookup_ains_ne d k2 k v2 h2]

theorem alookup_aupdate_of_mem {α : Type} (e : Dict α) :
    ∀ d k v, anodup e → alookup e k = some v →
      alookup (aupdate d e) k = some v := by
  induction e with
  | nil => intro d k v _ h; simp [alookup] at h
  | cons p rest ih =>
      obtain ⟨k2, v2⟩ := p
      intro d k v hnd h
      simp only [alookup] at h
      unfold anodup akeys at hnd
      simp only [List.map_cons, List.nodup_cons] at hnd
      by_cases h2 : k2 = k
      · subst h2
        rw [if_pos rfl] at h
        rw [← h]
        show alookup (aupdate (ains d k2 v2) rest) k2 = some v2
        rw [alookup_aupdate_of_none rest (ains d k2 v2) k2
              (alookup_eq_none_of_not_mem_keys rest k2 hnd.1)]
        exact alookup_ains_self d k2 v2
      · simp only [if_neg h2] at h
        show alookup (aupdate (ains d k2 v2) rest) k = some v
        exact ih (ains d k2 v2) k v hnd.2 h

/-! ## Coordinator lemmas -/

theorem get_daily_usage_error_imp (st : DUState) (hid : String)
    (today : Int) (now : Rat) (fetch : Outcome (Dict JVal)) :
    ∀ e, get_daily_usage st hid today now fetch = .error e →
      fetch = .authError := by
  intro e h
  unfold get_daily_usage at h
  by_cases hnr : needs_refresh st hid today now = true
  · rw [if_pos hnr] at h
    cases fetch <;> simp_all
  · rw [if_neg hnr] at h
    simp at h

theorem get_daily_usage_ok_of_ne_auth (st : DUState) (hid : String)
    (today : Int) (now : Rat) (fetch : Outcome (Dict JVal))
    (hf : fetch ≠ .authError) :
    ∃ r, get_daily_usage st hid today now fetch = .ok r := by
  cases h : get_daily_usage st hid today now fetch with
  | ok r => exact ⟨r, rfl⟩
  | error e =>
      exact absurd (get_daily_usage_error_imp st hid today now fetch e h) hf

theorem process_heaters_lookup_stable (env : UpdateEnv) (today : Int)
    (now : Rat) (prev : Option (Dict (Dict JVal))) :
    ∀ (l : Dict Heater) (du : DUState) (acc : Dict (Dict JVal))
      (du2 : DUState) (agg : Dict (Dict JVal)) (k : String),
      process_heaters env today now prev l du acc = .ok (du2, agg) →
      k ∉ akeys l → alookup agg k = alookup acc k := by
  intro l
  induction l with
  | nil =>
      intro du acc du2 agg k h _
      simp only [process_heaters, Except.ok.injEq, Prod.mk.injEq] at h
      rw [← h.2]
  | cons p rest ih =>
      obtain ⟨hid2, h2⟩ := p
      intro du acc du2 agg k hproc hk
      have hk1 : k ≠ hid2 := by
        intro hcon
        exact hk (by simp [akeys, hcon])
      have hk2 : k ∉ akeys rest := by
        intro hcon
        exact hk (by simp [akeys] at hcon ⊢; exact Or.inr hcon)
      cases hio : truthyStr (alookup h2.record "IoT_id") with
      | none =>
          simp only [process_heaters, hio] at hproc
          exact ih du acc du2 agg k hproc hk2
      | some iot =>
          cases hst : env.status iot with
          | authError => simp [process_heaters, hio, hst] at hproc
          | apiError =>
              simp only [process_heaters, hio, hst] at hproc
              rw [ih du _ du2 agg k hproc hk2]
              cases prev with
              | none => rfl
              | some pd =>
                  by_cases hpe : pd.isEmpty
                  · simp [hpe]
                  · simp only [hpe, if_false]
                    cases hsn : alookup pd hid2 with
                    | none => rfl
                    | some snap =>
                        exact alookup_ains_ne acc hid2 k snap
                          (fun hcon => hk1 hcon.symm)
          | ok status =>
              cases hdu : get_daily_usage du hid2 today now (env.daily iot)
                with
              | error e => simp [process_heaters, hio, hst, hdu] at hproc
              | ok r =>
                  simp only [process_heaters, hio, hst, hdu] at hproc
                  rw [ih r.state _ du2 agg k hproc hk2]
                  exact alookup_ains_ne acc hid2 k _
                    (fun hcon => hk1 hcon.symm)

theorem process_heaters_snapshot (env : UpdateEnv) (today : Int) (now : Rat)
    (pd : Dict (Dict JVal)) :
    ∀ (l : Dict Heater) (du : DUState) (acc : Dict (Dict JVal))
      (du2 : DUState) (agg : Dict (Dict JVal)) (hid : String) (h : Heater)
      (iot : String) (snap : Dict JVal),
      anodup l → (hid, h) ∈ l →
      truthyStr (alookup h.record "IoT_id") = some iot →
      env.status iot = .apiError →
      pd.isEmpty = false → alookup pd hid = some snap →
      process_heaters env today now (some pd) l du acc = .ok (du2, agg) →
      alookup agg hid = some snap := by
  intro l
  induction l with
  | nil =>
      intro du acc du2 agg hid h iot snap _ hmem
      simp at hmem
  | cons p rest ih =>
      obtain ⟨hid2, h2⟩ := p
      intro du acc du2 agg hid h iot snap hnd hmem hio hst hpe hsn hproc
      have hnd2 : anodup rest := by
        unfold anodup akeys at hnd ⊢
        simp only [List.map_cons, List.nodup_cons] at hnd
        exact hnd.2
      rcases List.mem_cons.mp hmem with heq | hmem2
      · obtain ⟨he1, he2⟩ := Prod.mk.injEq .. ▸ heq
        subst he1
        subst he2
        simp only [process_heaters, hio, hst, hpe, if_false, hsn] at hproc
        have hnotin : hid ∉ akeys rest := by
          unfold anodup akeys at hnd
          simp only [List.map_cons, List.nodup_cons] at hnd
          exact hnd.1
        rw [process_heaters_lookup_stable env today now (some pd) rest du
          (ains acc hid snap) du2 agg hid hproc hnotin]
        exact alookup_ains_self acc hid snap
      · cases hio2 : truthyStr (alookup h2.record "IoT_id") with
        | none =>
            simp only [process_heaters, hio2] at hproc
            exact ih du acc du2 agg hid h iot snap hnd2 hmem2 hio hst hpe
              hsn hproc
        | some iot2 =>
            cases hst2 : env.status iot2 with
            | authError => simp [process_heaters, hio2, hst2] at hproc
            | apiError =>
                simp only [process_heaters, hio2, hst2] at hproc
                exact ih du _ du2 agg hid h iot snap hnd2 hmem2 hio hst hpe
                  hsn hproc
            | ok status =>
                cases hdu : get_daily_usage du hid2 today now (env.daily iot2)
                  with
                | error e =>
                    simp [process_heaters, hio2, hst2, hdu] at hproc
                | ok r =>
                    simp only [process_heaters, hio2, hst2, hdu] at hproc
                    exact ih r.state _ du2 agg hid h iot snap hnd2 hmem2 hio
                      hst hpe hsn hproc

theorem process_heaters_error_cause (env : UpdateEnv) (today : Int)
    (now : Rat) (prev : Option (Dict (Dict JVal))) :
    ∀ (l : Dict Heater) (du : DUState) (acc : Dict (Dict JVal)) (f : UpdFail),
      process_heaters env today now prev l du acc = .error f →
      ∃ p ∈ l, heater_auth_failure env p := by
  intro l
  induction l with
  | nil =>
      intro du acc f h
      simp [process_heaters] at h
  | cons p rest ih =>
      obtain ⟨hid2, h2⟩ := p
      intro du acc f hproc
      cases hio : truthyStr (alookup h2.record "IoT_id") with
      | none =>
          simp only [process_heaters, hio] at hproc
          obtain ⟨q, hq, hfail⟩ := ih du acc f hproc
          exact ⟨q, List.mem_cons_of_mem _ hq, hfail⟩
      | some iot =>
          cases hst : env.status iot with
          | authError =>
              exact ⟨(hid2, h2), List.mem_cons_self _ _,
                iot, hio, Or.inl hst⟩
          | apiError =>
              simp only [process_heaters, hio, hst] at hproc
              obtain ⟨q, hq, hfail⟩ := ih du _ f hproc
              exact ⟨q, List.mem_cons_of_mem _ hq, hfail⟩
          | ok status =>
              cases hdu : get_daily_usage du hid2 today now (env.daily iot)
                with
              | error e =>
                  have hauth := get_daily_usage_error_imp du hid2 today now
                    (env.daily iot) e hdu
                  exact ⟨(hid2, h2), List.mem_cons_self _ _,
                    iot, hio, Or.inr hauth⟩
              | ok r =>
                  simp only [process_heaters, hio, hst, hdu] at hproc
                  obtain ⟨q, hq, hfail⟩ := ih r.state _ f hproc
                  exact ⟨q, List.mem_cons_of_mem _ hq, hfail⟩

theorem process_heaters_ok_of_no_auth (env : UpdateEnv) (today : Int)
    (now : Rat) (prev : Option (Dict (Dict JVal))) :
    ∀ (l : Dict Heater) (du : DUState) (acc : Dict (Dict JVal)),
      (∀ p ∈ l, ¬ heater_auth_failure env p) →
      ∃ du2 agg, process_heaters env today now prev l du acc
        = .ok (du2, agg) := by
  intro l
  induction l with
  | nil =>
      intro du acc _
      exact ⟨du, acc, rfl⟩
  | cons p rest ih =>
      obtain ⟨hid2, h2⟩ := p
      intro du acc hno
      have hno2 : ∀ p ∈ rest, ¬ heater_auth_failure env p :=
        fun q hq => hno q (List.mem_cons_of_mem _ hq)
      have hnohead := hno (hid2, h2) (List.mem_cons_self _ _)
      cases hio : truthyStr (alookup h2.record "IoT_id") with
      | none =>
          obtain ⟨du2, agg, hrest⟩ := ih du acc hno2
          exact ⟨du2, agg, by simp only [process_heaters, hio]; exact hrest⟩
      | some iot =>
          cases hst : env.status iot with
          | authError =>
              exact absurd ⟨iot, hio, Or.inl hst⟩ hnohead
          | apiError =>
              obtain ⟨du2, agg, hrest⟩ := ih du _ hno2
              exact ⟨du2, agg,
                by simp only [process_heaters, hio, hst]; exact hrest⟩
          | ok status =>
              have hdne : env.daily iot ≠ .authError := by
                intro hcon
                exact hnohead ⟨iot, hio, Or.inr hcon⟩
              obtain ⟨r, hr⟩ := get_daily_usage_ok_of_ne_auth du hid2 today
                now (env.daily iot) hdne
              obtain ⟨du2, agg, hrest⟩ := ih r.state _ hno2
              exact ⟨du2, agg,
                by simp only [process_heaters, hio, hst, hr]; exact hrest⟩

theorem register_heaters_ne_nil (hs : List Heater) :
    ∀ wh, wh ≠ [] → register_heaters wh hs ≠ [] := by
  induction hs with
  | nil => intro wh h; exact h
  | cons h0 rest ih =>
      intro wh _
      show register_heaters (ains wh h0.id h0) rest ≠ []
      exact ih (ains wh h0.id h0) (ains_ne_nil wh h0.id h0)

theorem async_discovery_called_eq (c : Coordinator) (env : UpdateEnv)
    (today : Int) (now : Rat) :
    (async_update_data c env today now).discovery_called
      = c.water_heaters.isEmpty := by
  unfold async_update_data
  by_cases hE : c.water_heaters.isEmpty = true
  · rw [if_pos hE, hE]
    cases hd : env.discovery with
    | apiError => rfl
    | authError => rfl
    | ok hs =>
        cases hp : process_heaters env today now c.data
            (register_heaters c.water_heaters hs) c.du [] with
        | error e => simp [hp]
        | ok r => obtain ⟨du2, agg⟩ := r; simp [hp]
  · have hE2 : c.water_heaters.isEmpty = false := by simpa using hE
    rw [if_neg hE, hE2]
    cases hp : process_heaters env today now c.data c.water_heaters c.du []
      with
    | error e => simp [hp]
    | ok r => obtain ⟨du2, agg⟩ := r; simp [hp]

theorem async_coord_heaters_after_discovery (c : Coordinator)
    (env : UpdateEnv) (today : Int) (now : Rat) (hs : List Heater)
    (hnil : c.water_heaters = []) (hdisc : env.discovery = .ok hs) :
    (async_update_data c env today now).coord.water_heaters
      = register_heaters c.water_heaters hs := by
  have hE : c.water_heaters.isEmpty = true := by rw [hnil]; rfl
  unfold async_update_data
  rw [if_pos hE, hdisc]
  cases hp : process_heaters env today now c.data
      (register_heaters c.water_heaters hs) c.du [] with
  | error e => simp [hp]
  | ok r => obtain ⟨du2, agg⟩ := r; simp [hp]

/-! ## Claim theorems -/

/-- C1: when the first HTTP response to a GraphQL operation has status 401,
`_graphql_request` performs exactly one token refresh and re-issues the
identical payload (same query and variables) exactly once, and a failure of
the retried request (transport error or an `errors`-bearing body) surfaces
as `CalaApiError` with no further refresh or retry. -/
theorem c1_single_refresh_single_retry_on_401
    (b1 : GqlBody) (r2 : HttpResult) (q : String)
    (vars : Option (Dict JVal)) :
    (graphql_request (.resp 401 b1) r2 true q vars).2
        = [.post (payloadOf q vars), .tokenRefresh, .post (payloadOf q vars)]
    ∧ ((graphql_request (.resp 401 b1) r2 true q vars).2.count .tokenRefresh
        = 1)
    ∧ (∀ m, r2 = .netError m →
        (graphql_request (.resp 401 b1) r2 true q vars).1 = .error .apiError)
    ∧ (∀ s2 b2 es, r2 = .resp s2 b2 → b2.errors = some es →
        (graphql_request (.resp 401 b1) r2 true q vars).1
          = .error .apiError) := by
  refine ⟨?_, ?_, ?_, ?_⟩
  · cases r2 <;> rfl
  · cases r2 <;> rfl
  · intro m hm
    subst hm
    rfl
  · intro s2 b2 es hm he
    subst hm
    simp [graphql_request, finishBody, he]

/-- C1 witness: a 401 followed by a retry whose body carries `errors`
yields exactly one refresh and an API error. -/
theorem c1_witness :
    (graphql_request (.resp 401 ⟨none, none⟩)
        (.resp 200 ⟨some ["boom"], none⟩) true "q" none).2.count .tokenRefresh
        = 1
    ∧ (graphql_request (.resp 401 ⟨none, none⟩)
        (.resp 200 ⟨some ["boom"], none⟩) true "q" none).1
        = .error .apiError :=
  ⟨(c1_single_refresh_single_retry_on_401 ⟨none, none⟩
      (.resp 200 ⟨some ["boom"], none⟩) "q" none).2.1,
   (c1_single_refresh_single_retry_on_401 ⟨none, none⟩
      (.resp 200 ⟨some ["boom"], none⟩) "q" none).2.2.2
      200 ⟨some ["boom"], none⟩ ["boom"] rfl rfl⟩

/-- C2: whenever the response body ultimately used by `_graphql_request`
carries a non-empty `errors` list — whether it is the first response (of
any non-401 status) or the retried response after a 401 — the call raises
`CalaApiError`, regardless of any accompanying `data` field. -/
theorem c2_nonempty_errors_raise_api_error
    (q : String) (vars : Option (Dict JVal)) (s : Nat) (b : GqlBody)
    (es : List String) (hne : es ≠ []) (he : b.errors = some es) :
    (∀ r2, s ≠ 401 →
      (graphql_request (.resp s b) r2 true q vars).1 = .error .apiError)
    ∧ (∀ b1, (graphql_request (.resp 401 b1) (.resp s b) true q vars).1
        = .error .apiError) := by
  constructor
  · intro r2 hs
    simp [graphql_request, hs, finishBody, he]
  · intro b1
    simp [graphql_request, finishBody, he]

/-- C2 witness: an errors-bearing body with partial data raises on both
paths. -/
theorem c2_witness :
    (graphql_request (.resp 200 ⟨some ["bad"], some [("x", .num 1)]⟩)
        (.resp 200 ⟨none, none⟩) true "q" none).1 = .error .apiError
    ∧ (graphql_request (.resp 401 ⟨none, none⟩)
        (.resp 200 ⟨some ["bad"], some [("x", .num 1)]⟩) true "q" none).1
        = .error .apiError :=
  ⟨(c2_nonempty_errors_raise_api_error "q" none 200
      ⟨some ["bad"], some [("x", .num 1)]⟩ ["bad"] (by simp) rfl).1
      (.resp 200 ⟨none, none⟩) (by simp),
   (c2_nonempty_errors_raise_api_error "q" none 200
      ⟨some ["bad"], some [("x", .num 1)]⟩ ["bad"] (by simp) rfl).2
      ⟨none, none⟩⟩

/-- C8: every mutation operation — `set_temperature`, the mode-change paths
(`async_set_operation_mode`, `async_turn_on`, `async_turn_off`),
`create_boost_mode`, `cancel_boost_mode`, `create_vacation_mode` and
`cancel_vacation_mode` — returns `True` when the underlying GraphQL
mutation succeeds and `False` when a `CalaApiError` occurs, never
propagating the API error to its caller. -/
theorem c8_mutations_swallow_api_errors
    (wid bid vid hid home mode : String) (temp : Rat) (dur sd ed : Int) :
    (set_temperature wid temp (.ok ()) = .ok true
      ∧ set_temperature wid temp .apiError = .ok false)
    ∧ (create_boost_mode wid temp dur (.ok ()) = .ok true
      ∧ create_boost_mode wid temp dur .apiError = .ok false)
    ∧ (cancel_boost_mode bid (.ok ()) = .ok true
      ∧ cancel_boost_mode bid .apiError = .ok false)
    ∧ (create_vacation_mode home sd ed (.ok ()) = .ok true
      ∧ create_vacation_mode home sd ed .apiError = .ok false)
    ∧ (cancel_vacation_mode vid (.ok ()) = .ok true
      ∧ cancel_vacation_mode vid .apiError = .ok false)
    ∧ (async_set_operation_mode hid mode (.ok ()) = .ok true
      ∧ async_set_operation_mode hid mode .apiError = .ok false)
    ∧ (async_turn_on hid (.ok ()) = .ok true
      ∧ async_turn_on hid .apiError = .ok false)
    ∧ (async_turn_off hid (.ok ()) = .ok true
      ∧ async_turn_off hid .apiError = .ok false) :=
  ⟨⟨rfl, rfl⟩, ⟨rfl, rfl⟩, ⟨rfl, rfl⟩, ⟨rfl, rfl⟩, ⟨rfl, rfl⟩,
   ⟨rfl, rfl⟩, ⟨rfl, rfl⟩, ⟨rfl, rfl⟩⟩

/-- C9 counterexample: the status payload of the polling path
(`get_water_heater_status`) is sourced from exactly two sequential sensor
queries; the device-properties, controls, alerts and rolling-state
queries are never issued there, so it is not sourced from the five vendor
queries the claim names. -/
theorem c9_counterexample_two_queries_only :
    (get_water_heater_status [] []).2 = [bucketed_sensor_op, raw_sensor_op]
    ∧ (get_water_heater_status [] []).2.length = 2
    ∧ device_properties_op ∉ (get_water_heater_status [] []).2
    ∧ controls_op ∉ (get_water_heater_status [] []).2
    ∧ alerts_op ∉ (get_water_heater_status [] []).2
    ∧ rolling_state_op ∉ (get_water_heater_status [] []).2 := by
  refine ⟨rfl, rfl, ?_, ?_, ?_, ?_⟩ <;> decide

/-- C9 amended: the polled status payload is a flat field-to-value mapping
sourced from two sequential sensor queries (bucketed, then raw), merged so
that a field supplied by the later (raw) source overwrites the earlier
(bucketed) source's value, and fields only in the earlier source are
kept. -/
theorem c9_amended_two_source_merge
    (b r : Dict JVal) (brest rrest : List (Dict JVal)) (k : String) (v : JVal)
    (hb : anodup b) (hr : anodup r) :
    (get_water_heater_status (b :: brest) (r :: rrest)).2
        = [bucketed_sensor_op, raw_sensor_op]
    ∧ (alookup r k = some v →
        alookup (get_water_heater_status (b :: brest) (r :: rrest)).1 k
          = some v)
    ∧ (alookup r k = none →
        alookup (get_water_heater_status (b :: brest) (r :: rrest)).1 k
          = alookup b k) := by
  refine ⟨rfl, ?_, ?_⟩
  · intro h
    exact alookup_aupdate_of_mem r (aupdate [] b) k v hr h
  · intro h
    show alookup (aupdate (aupdate [] b) r) k = alookup b k
    rw [alookup_aupdate_of_none r (aupdate [] b) k h]
    cases hbk : alookup b k with
    | none => rw [alookup_aupdate_of_none b [] k hbk]; rfl
    | some v2 => exact alookup_aupdate_of_mem b [] k v2 hb hbk

/-- C9 amended witness: a field present in both sources takes the raw
source's value. -/
theorem c9_amended_witness :
    alookup (get_water_heater_status [[("topTankTemp", JVal.num 50)]]
        [[("topTankTemp", JVal.num 51)]]).1 "topTankTemp"
      = some (JVal.num 51) :=
  (c9_amended_two_source_merge [("topTankTemp", JVal.num 50)]
      [("topTankTemp", JVal.num 51)] [] [] "topTankTemp" (JVal.num 51)
      (by decide) (by decide)).2.1 rfl

/-- C10: for every water heater record carrying an `IoT_id`,
`get_full_status` returns a dictionary with all ten of its keys, where
each failing sub-fetch is replaced by an empty dict (or `None` for
boost/vacation) and each succeeding sub-fetch is kept intact. -/
theorem c10_full_status_per_task_isolation (wh : Dict JVal)
    (env : FullStatusEnv) (iot : String)
    (hiot : truthyStr (alookup wh "IoT_id") = some iot) :
    ∃ fs, get_full_status wh env = some fs
      ∧ fs.water_heater = wh
      ∧ (∀ d, env.sensor_data = .ok d → fs.sensor_data = d)
      ∧ (∀ m, env.sensor_data = .error m → fs.sensor_data = [])
      ∧ (∀ d, env.device_properties = .ok d → fs.device_properties = d)
      ∧ (∀ m, env.device_properties = .error m → fs.device_properties = [])
      ∧ (∀ d, env.controls = .ok d → fs.controls = d)
      ∧ (∀ m, env.controls = .error m → fs.controls = [])
      ∧ (∀ d, env.alerts = .ok d → fs.alerts = d)
      ∧ (∀ m, env.alerts = .error m → fs.alerts = [])
      ∧ (∀ d, env.rolling_state = .ok d → fs.rolling_state = d)
      ∧ (∀ m, env.rolling_state = .error m → fs.rolling_state = [])
      ∧ (∀ hid b, truthyStr (alookup wh "id") = some hid →
          env.boost_mode = .ok b → fs.boost_mode = b)
      ∧ (∀ hid m, truthyStr (alookup wh "id") = some hid →
          env.boost_mode = .error m → fs.boost_mode = none)
      ∧ (∀ home v, truthyStr (alookup wh "homeId") = some home →
          env.vacation_mode = .ok v → fs.vacation_mode = v)
      ∧ (∀ home m, truthyStr (alookup wh "homeId") = some home →
          env.vacation_mode = .error m → fs.vacation_mode = none) := by
  refine ⟨_, by rw [get_full_status, hiot], rfl, ?_, ?_, ?_, ?_, ?_, ?_, ?_,
    ?_, ?_, ?_, ?_, ?_, ?_, ?_⟩ <;>
    simp only [get_full_status, hiot]
  · intro d hd; simp [hd]
  · intro m hm; simp [hm]
  · intro d hd; simp [hd]
  · intro m hm; simp [hm]
  · intro d hd; simp [hd]
  · intro m hm; simp [hm]
  · intro d hd; simp [hd]
  · intro m hm; simp [hm]
  · intro d hd; simp [hd]
  · intro m hm; simp [hm]
  · intro hid b hh hb; simp [hh, hb]
  · intro hid m hh hb; simp [hh, hb]
  · intro home v hh hv; simp [hh, hv]
  · intro home m hh hv; simp [hh, hv]

/-- C10 witness: with a failing device-properties fetch and succeeding
sensor fetch, the result keeps the sensor data and degrades the
properties to an empty dict. -/
theorem c10_witness :
    ∃ fs,
      get_full_status [("IoT_id", JVal.str "d1"), ("id", JVal.str "h1"),
          ("homeId", JVal.str "hm1")]
        { sensor_data := .ok [("topTankTemp", JVal.num 50)]
          device_properties := .error "boom"
          controls := .ok []
          alerts := .ok []
          rolling_state := .ok []
          boost_mode := .error "boom"
          vacation_mode := .ok none } = some fs
      ∧ fs.sensor_data = [("topTankTemp", JVal.num 50)]
      ∧ fs.device_properties = []
      ∧ fs.boost_mode = none := by
  obtain ⟨fs, hfs, _, hsen, _, _, hprops, _, _, _, _, _, _, _, hb, _, _⟩ :=
    c10_full_status_per_task_isolation
      [("IoT_id", JVal.str "d1"), ("id", JVal.str "h1"),
        ("homeId", JVal.str "hm1")]
      { sensor_data := .ok [("topTankTemp", JVal.num 50)]
        device_properties := .error "boom"
        controls := .ok []
        alerts := .ok []
        rolling_state := .ok []
        boost_mode := .error "boom"
        vacation_mode := .ok none } "d1" rfl
  exact ⟨fs, hfs, hsen _ rfl, hprops _ rfl, hb "h1" "boom" rfl rfl⟩

/-- C5: the merged status fields `dailyEnergyUsed` and `dailyWaterUsed` of
a successfully polled heater equal `daily_usage.get("dailyEnergyUsed", 0.0)`
and `daily_usage.get("dailyWaterUsed", 0.0)`; since `get_daily_summary`'s
query selects only `deviceId`, `date`, `energyUsed` and `waterUsed`, a
summary restricted to those vendor keys makes both merged fields the
default `0.0`. -/
theorem c5_daily_fields_name_mismatch_zero
    (heater status usage : Dict JVal) (today : Int) (hst : anodup status) :
    alookup (aupdate heater (status_with_daily status usage today))
        "dailyEnergyUsed" = some (agetD usage "dailyEnergyUsed" (.num 0))
    ∧ alookup (aupdate heater (status_with_daily status usage today))
        "dailyWaterUsed" = some (agetD usage "dailyWaterUsed" (.num 0))
    ∧ ((∀ k ∈ akeys usage, k ∈ daily_summary_fields) →
        alookup (aupdate heater (status_with_daily status usage today))
            "dailyEnergyUsed" = some (.num 0)
        ∧ alookup (aupdate heater (status_with_daily status usage today))
            "dailyWaterUsed" = some (.num 0)) := by
  have hnd : anodup (status_with_daily status usage today) := by
    unfold status_with_daily
    exact anodup_ains _ _ _ (anodup_ains _ _ _ (anodup_ains _ _ _ hst))
  have hE : alookup (status_with_daily status usage today) "dailyEnergyUsed"
      = some (agetD usage "dailyEnergyUsed" (.num 0)) := by
    unfold status_with_daily
    rw [alookup_ains_ne _ _ _ _ (by decide),
      alookup_ains_ne _ _ _ _ (by decide), alookup_ains_self]
  have hW : alookup (status_with_daily status usage today) "dailyWaterUsed"
      = some (agetD usage "dailyWaterUsed" (.num 0)) := by
    unfold status_with_daily
    rw [alookup_ains_ne _ _ _ _ (by decide), alookup_ains_self]
  refine ⟨alookup_aupdate_of_mem _ _ _ _ hnd hE,
    alookup_aupdate_of_mem _ _ _ _ hnd hW, ?_⟩
  intro hsub
  have hkE : alookup usage "dailyEnergyUsed" = none := by
    apply alookup_eq_none_of_not_mem_keys
    intro hmem
    have := hsub _ hmem
    simp [daily_summary_fields] at this
  have hkW : alookup usage "dailyWaterUsed" = none := by
    apply alookup_eq_none_of_not_mem_keys
    intro hmem
    have := hsub _ hmem
    simp [daily_summary_fields] at this
  constructor
  · rw [alookup_aupdate_of_mem _ _ _ _ hnd hE, agetD, hkE]; rfl
  · rw [alookup_aupdate_of_mem _ _ _ _ hnd hW, agetD, hkW]; rfl

/-- C5 witness: a vendor summary carrying only `deviceId`, `date`,
`energyUsed` and `waterUsed` yields merged daily fields equal to zero. -/
theorem c5_witness :
    alookup (aupdate [("name", JVal.str "heater")]
        (status_with_daily [("topTankTemp", JVal.num 50)]
          [("deviceId", JVal.str "d1"), ("date", JVal.str "2026-10-12"),
            ("energyUsed", JVal.num 7), ("waterUsed", JVal.num 90)] 3))
        "dailyEnergyUsed" = some (JVal.num 0) :=
  ((c5_daily_fields_name_mismatch_zero [("name", JVal.str "heater")]
      [("topTankTemp", JVal.num 50)]
      [("deviceId", JVal.str "d1"), ("date", JVal.str "2026-10-12"),
        ("energyUsed", JVal.num 7), ("waterUsed", JVal.num 90)] 3
      (by decide)).2.2 (by decide)).1

/-- C3: `_get_daily_usage` calls the vendor daily-summary endpoint exactly
when no prior fetch exists, or the cached date differs from today, or at
least 300 seconds have elapsed since the last fetch; otherwise it returns
the cached pair untouched without any vendor call, so a successful fetch
is never repeated within the same 5-minute same-day window. -/
theorem c3_daily_usage_fetch_window (st : DUState) (hid : String)
    (today : Int) (now now2 : Rat) (fetch fetch2 : Outcome (Dict JVal))
    (hwf : (alookup st.last_fetch hid).isSome →
      (alookup st.cache hid).isSome)
    (hf : fetch ≠ .authError) :
    ∃ r, get_daily_usage st hid today now fetch = .ok r
      ∧ r.called_api = needs_refresh st hid today now
      ∧ (needs_refresh st hid today now = true ↔
          (alookup st.last_fetch hid = none
            ∨ alookup st.cur_date hid ≠ some today
            ∨ ∃ lf, alookup st.last_fetch hid = some lf ∧ 300 ≤ now - lf))
      ∧ (r.called_api = false →
          r.state = st ∧ ∃ u, alookup st.cache hid = some u ∧ r.usage = u)
      ∧ (needs_refresh st hid today now = true →
          ∀ u, fetch = .ok u → now2 - now < 300 →
            ∃ r2, get_daily_usage r.state hid today now2 fetch2 = .ok r2
              ∧ r2.called_api = false ∧ r2.usage = u) := by
  have hiff : needs_refresh st hid today now = true ↔
      (alookup st.last_fetch hid = none
        ∨ alookup st.cur_date hid ≠ some today
        ∨ ∃ lf, alookup st.last_fetch hid = some lf ∧ 300 ≤ now - lf) := by
    unfold needs_refresh
    cases hlf : alookup st.last_fetch hid with
    | none => simp
    | some lf => simp [hlf]
  by_cases hnr : needs_refresh st hid today now = true
  · cases fetch with
    | authError => exact absurd rfl hf
    | apiError =>
        refine ⟨{ state := st
                  usage := match alookup st.cache hid with
                    | some u => u
                    | none => zero_usage
                  called_api := true },
          by simp [get_daily_usage, hnr], by rw [hnr], hiff, ?_, ?_⟩
        · intro hfalse; simp at hfalse
        · intro _ u hu; exact absurd hu (by simp)
    | ok u =>
        have hstep : get_daily_usage st hid today now (.ok u)
            = .ok { state :=
                      { cache := ains st.cache hid u
                        last_fetch := ains st.last_fetch hid now
                        cur_date := ains st.cur_date hid today }
                    usage := agetD (ains st.cache hid u) hid zero_usage
                    called_api := true } := by
          simp [get_daily_usage, hnr]
        refine ⟨_, hstep, by rw [hnr], hiff, ?_, ?_⟩
        · intro hfalse; simp at hfalse
        · intro hnrt u2 hu2 hlt
          have hu3 : u = u2 := by injection hu2
          subst hu3
          have hnr2 : needs_refresh
              { cache := ains st.cache hid u
                last_fetch := ains st.last_fetch hid now
                cur_date := ains st.cur_date hid today } hid today now2
              = false := by
            unfold needs_refresh
            simp only [alookup_ains_self]
            simp only [ne_eq, not_true_eq_false, false_or,
              decide_eq_false_iff_not, not_le]
            linarith
          refine ⟨{ state :=
                      { cache := ains st.cache hid u
                        last_fetch := ains st.last_fetch hid now
                        cur_date := ains st.cur_date hid today }
                    usage := agetD (ains st.cache hid u) hid zero_usage
                    called_api := false }, ?_, rfl, ?_⟩
          · simp [get_daily_usage, hnr2]
          · show agetD (ains st.cache hid u) hid zero_usage = u
            rw [agetD, alookup_ains_self]
            rfl
  · have hnr2 : needs_refresh st hid today now = false := by
      simpa using hnr
    have hlf : (alookup st.last_fetch hid).isSome = true := by
      cases hcLF : alookup st.last_fetch hid with
      | none => exact absurd (hiff.mpr (Or.inl hcLF)) hnr
      | some lf => rfl
    refine ⟨{ state := st
              usage := agetD st.cache hid zero_usage
              called_api := false },
      by simp [get_daily_usage, hnr2], by rw [hnr2], hiff, ?_, ?_⟩
    · intro _
      refine ⟨rfl, ?_⟩
      cases hc : alookup st.cache hid with
      | none =>
          have h7 := hwf hlf
          rw [hc] at h7
          simp at h7
      | some u =>
          have hus : agetD st.cache hid zero_usage = u := by
            rw [agetD, hc]
            rfl
          exact ⟨u, rfl, hus⟩
    · intro hcontra
      rw [hnr2] at hcontra
      exact absurd hcontra (by simp)

/-- C3 witness: with a cache entry fetched 100 seconds ago on the same
day, a new cycle performs no vendor call and returns the cached pair. -/
theorem c3_witness :
    ∃ r, get_daily_usage
        { cache := [("h1", [("energyUsed", JVal.num 5)])]
          last_fetch := [("h1", (100 : Rat))]
          cur_date := [("h1", (7 : Int))] } "h1" 7 200 .apiError = .ok r
      ∧ r.called_api = false
      ∧ r.usage = [("energyUsed", JVal.num 5)] := by
  obtain ⟨r, hr, hc, _, hnc, _⟩ := c3_daily_usage_fetch_window
    { cache := [("h1", [("energyUsed", JVal.num 5)])]
      last_fetch := [("h1", (100 : Rat))]
      cur_date := [("h1", (7 : Int))] } "h1" 7 200 0 .apiError .apiError
    (by intro _; decide) (by simp)
  have hnrf : needs_refresh
      { cache := [("h1", [("energyUsed", JVal.num 5)])]
        last_fetch := [("h1", (100 : Rat))]
        cur_date := [("h1", (7 : Int))] } "h1" 7 200 = false := by
    simp only [needs_refresh, alookup, if_pos rfl]
    norm_num
  have hfalse : r.called_api = false := by rw [hc, hnrf]
  obtain ⟨hst, u, hu, hus⟩ := hnc hfalse
  have h6 : [("energyUsed", JVal.num 5)] = u := by
    have h5 : alookup
        [("h1", [("energyUsed", JVal.num 5)])] "h1"
        = some [("energyUsed", JVal.num 5)] := rfl
    injection h5.symm.trans hu
  exact ⟨r, hr, hfalse, by rw [hus, ← h6]⟩

/-- C6: when the daily-summary fetch raises a `CalaApiError`,
`_get_daily_usage` returns the previously cached pair when one exists and
the zero pair otherwise, and leaves the cached pair, cached date and
last-fetch time for the heater unchanged. -/
theorem c6_failed_fetch_keeps_cache (st : DUState) (hid : String)
    (today : Int) (now : Rat)
    (hnr : needs_refresh st hid today now = true) :
    ∃ r, get_daily_usage st hid today now .apiError = .ok r
      ∧ r.state = st
      ∧ (∀ u, alookup st.cache hid = some u → r.usage = u)
      ∧ (alookup st.cache hid = none → r.usage = zero_usage) := by
  refine ⟨{ state := st
            usage := match alookup st.cache hid with
              | some u => u
              | none => zero_usage
            called_api := true }, by simp [get_daily_usage, hnr], rfl,
    ?_, ?_⟩
  · intro u hu; simp [hu]
  · intro hu; simp [hu]

/-- C6 witness: with an empty cache, a failed fetch returns the zero pair
and leaves the (empty) caches unchanged. -/
theorem c6_witness :
    ∃ r, get_daily_usage { cache := [], last_fetch := [], cur_date := [] }
        "h1" 0 0 .apiError = .ok r
      ∧ r.state = { cache := [], last_fetch := [], cur_date := [] }
      ∧ r.usage = zero_usage := by
  obtain ⟨r, hr, hst, _, hnone⟩ := c6_failed_fetch_keeps_cache
    { cache := [], last_fetch := [], cur_date := [] } "h1" 0 0 (by decide)
  exact ⟨r, hr, hst, hnone rfl⟩

/-- C4: during a poll cycle, a heater whose status fetch raises a
`CalaApiError` keeps its previously cached snapshot unchanged in the
aggregate and the cycle still succeeds; a cycle fails as `UpdateFailed`
only for a discovery failure (auth or API error outside the per-heater
loop) or an authentication failure, and a cycle with no authentication
failure among the polled heaters always succeeds. -/
theorem c4_per_heater_failure_isolation :
    (∀ (c : Coordinator) (env : UpdateEnv) (today : Int) (now : Rat)
        (hid : String) (h : Heater) (iot : String) (snap : Dict JVal)
        (pd : Dict (Dict JVal)),
        c.water_heaters.isEmpty = false →
        anodup c.water_heaters →
        (hid, h) ∈ c.water_heaters →
        truthyStr (alookup h.record "IoT_id") = some iot →
        env.status iot = .apiError →
        c.data = some pd → pd.isEmpty = false → alookup pd hid = some snap →
        ∀ agg, (async_update_data c env today now).result = .ok agg →
          alookup agg hid = some snap)
    ∧ (∀ (c : Coordinator) (env : UpdateEnv) (today : Int) (now : Rat)
        (f : UpdFail),
        (async_update_data c env today now).result = .error f →
          (c.water_heaters.isEmpty = true
              ∧ (env.discovery = .apiError ∨ env.discovery = .authError
                ∨ ∃ hs, env.discovery = .ok hs
                    ∧ ∃ p ∈ register_heaters c.water_heaters hs,
                        heater_auth_failure env p))
          ∨ (c.water_heaters.isEmpty = false
              ∧ ∃ p ∈ c.water_heaters, heater_auth_failure env p))
    ∧ (∀ (c : Coordinator) (env : UpdateEnv) (today : Int) (now : Rat),
        c.water_heaters.isEmpty = false →
        (∀ p ∈ c.water_heaters, ¬ heater_auth_failure env p) →
        ∃ agg, (async_update_data c env today now).result = .ok agg) := by
  refine ⟨?_, ?_, ?_⟩
  · intro c env today now hid h iot snap pd hne hnd hmem hio hst hdata hpe
      hsn agg hok
    unfold async_update_data at hok
    rw [if_neg (by simp [hne])] at hok
    cases hp : process_heaters env today now c.data c.water_heaters c.du []
      with
    | error e => rw [hp] at hok; simp at hok
    | ok r =>
        obtain ⟨du2, agg0⟩ := r
        rw [hp] at hok
        simp only [Except.ok.injEq] at hok
        rw [hdata] at hp
        rw [← hok]
        exact process_heaters_snapshot env today now pd c.water_heaters c.du
          [] du2 agg0 hid h iot snap hnd hmem hio hst hpe hsn hp
  · intro c env today now f herr
    unfold async_update_data at herr
    by_cases hE : c.water_heaters.isEmpty = true
    · rw [if_pos hE] at herr
      left
      refine ⟨hE, ?_⟩
      cases hd : env.discovery with
      | apiError => exact Or.inl rfl
      | authError => exact Or.inr (Or.inl rfl)
      | ok hs =>
          refine Or.inr (Or.inr ⟨hs, rfl, ?_⟩)
          simp only [hd] at herr
          cases hp : process_heaters env today now c.data
              (register_heaters c.water_heaters hs) c.du [] with
          | error e =>
              exact process_heaters_error_cause env today now c.data
                (register_heaters c.water_heaters hs) c.du [] e hp
          | ok r =>
              obtain ⟨du2, agg⟩ := r
              simp [hp] at herr
    · rw [if_neg hE] at herr
      right
      refine ⟨by simpa using hE, ?_⟩
      cases hp : process_heaters env today now c.data c.water_heaters c.du []
        with
      | error e =>
          exact process_heaters_error_cause env today now c.data
            c.water_heaters c.du [] e hp
      | ok r =>
          obtain ⟨du2, agg⟩ := r
          rw [hp] at herr
          simp at herr
  · intro c env today now hne hno
    unfold async_update_data
    rw [if_neg (by simp [hne])]
    obtain ⟨du2, agg, hp⟩ := process_heaters_ok_of_no_auth env today now
      c.data c.water_heaters c.du [] hno
    rw [hp]
    exact ⟨agg, rfl⟩

/-- C4 witness: a heater whose status fetch API-errors keeps its previous
snapshot in a successful cycle. -/
theorem c4_witness :
    alookup [("h1", [("cached", JVal.num 9)])] "h1"
      = some [("cached", JVal.num 9)] :=
  c4_per_heater_failure_isolation.1
    { water_heaters := [("h1", { id := "h1"
                               , record := [("IoT_id", JVal.str "d1")] })]
      du := { cache := [], last_fetch := [], cur_date := [] }
      data := some [("h1", [("cached", JVal.num 9)])] }
    { discovery := .ok []
      status := fun _ => .apiError
      daily := fun _ => .ok [] } 0 0 "h1"
    { id := "h1", record := [("IoT_id", JVal.str "d1")] } "d1"
    [("cached", JVal.num 9)] [("h1", [("cached", JVal.num 9)])]
    rfl (by decide) (by simp) rfl rfl rfl rfl rfl
    [("h1", [("cached", JVal.num 9)])] rfl

/-- C7 counterexample: a first discovery that completes without raising
and returns the empty list leaves the heater map empty, so the next
update cycle calls `get_water_heaters` again, contradicting the claim
that discovery is performed at most once per coordinator lifetime. -/
theorem c7_counterexample_empty_discovery_retried :
    (async_update_data
        { water_heaters := []
          du := { cache := [], last_fetch := [], cur_date := [] }
          data := none }
        { discovery := .ok [], status := fun _ => .apiError,
          daily := fun _ => .apiError } 0 0).result = .ok []
    ∧ (async_update_data
        { water_heaters := []
          du := { cache := [], last_fetch := [], cur_date := [] }
          data := none }
        { discovery := .ok [], status := fun _ => .apiError,
          daily := fun _ => .apiError } 0 0).discovery_called = true
    ∧ (async_update_data
        (async_update_data
          { water_heaters := []
            du := { cache := [], last_fetch := [], cur_date := [] }
            data := none }
          { discovery := .ok [], status := fun _ => .apiError,
            daily := fun _ => .apiError } 0 0).coord
        { discovery := .ok [], status := fun _ => .apiError,
          daily := fun _ => .apiError } 0 0).discovery_called = true :=
  ⟨rfl, rfl, rfl⟩

/-- C7 amended: heater discovery runs exactly on the cycles whose heater
map is still empty — so it is retried after an empty (or failed) discovery
— and once a discovery returns a non-empty list, no later cycle calls
`get_water_heaters` again. -/
theorem c7_amended_discovery_until_nonempty (c : Coordinator)
    (env env2 : UpdateEnv) (today today2 : Int) (now now2 : Rat) :
    ((async_update_data c env today now).discovery_called
        = c.water_heaters.isEmpty)
    ∧ (∀ h hs, c.water_heaters = [] → env.discovery = .ok (h :: hs) →
        (async_update_data (async_update_data c env today now).coord env2
            today2 now2).discovery_called = false) := by
  constructor
  · exact async_discovery_called_eq c env today now
  · intro h hs hnil hdisc
    rw [async_discovery_called_eq]
    rw [async_coord_heaters_after_discovery c env today now (h :: hs) hnil
      hdisc]
    have hne : register_heaters c.water_heaters (h :: hs) ≠ [] := by
      rw [hnil]
      show register_heaters (ains [] h.id h) hs ≠ []
      exact register_heaters_ne_nil hs _ (ains_ne_nil [] h.id h)
    cases hreg : register_heaters c.water_heaters (h :: hs) with
    | nil => exact absurd hreg hne
    | cons q rest => rfl

/-- C7 amended witness: after a discovery returning one heater, the next
cycle performs no discovery. -/
theorem c7_amended_witness :
    (async_update_data
        (async_update_data
          { water_heaters := []
            du := { cache := [], last_fetch := [], cur_date := [] }
            data := none }
          { discovery := .ok [{ id := "h1", record := [] }],
            status := fun _ => .apiError, daily := fun _ => .apiError } 0 0).coord
        { discovery := .ok [], status := fun _ => .apiError,
          daily := fun _ => .apiError } 0 0).discovery_called = false :=
  (c7_amended_discovery_until_nonempty
    { water_heaters := []
      du := { cache := [], last_fetch := [], cur_date := [] }
      data := none }
    { discovery := .ok [{ id := "h1", record := [] }],
      status := fun _ => .apiError, daily := fun _ => .apiError }
    { discovery := .ok [], status := fun _ => .apiError,
      daily := fun _ => .apiError } 0 0 0 0).2
    { id := "h1", record := [] } [] rfl rfl

end Cala
